import Mathlib

/-!
# Verification of the StruAI JavaScript SDK client layer

Shallow embedding of the SDK in `src/js/src/index.ts` (with the variant SDK in
`src/unnamed/part_003` where noted).  Server behaviour (HTTP responses, Cypher
row sets) is an input to each embedded operation; the definitions model the
client-side computation performed on those inputs.

JavaScript numbers are modelled as rationals (`ℚ`), machine integers do not
occur; fallible code returns `Except`.
-/

set_option maxRecDepth 4000

/-! ## JSON values as they appear in DocQuery result rows

Rows returned by the server's cypher endpoint are JSON objects whose values are
scalars (string / number / boolean / null), absent (reads as `undefined` in
JS), or flat arrays of scalars (label lists, `target_sheets`).  That is the
value universe the aggregation code in `index.ts` actually touches. -/

/-- A scalar JSON value, or `undefined` (a read of an absent object field). -/
inductive JPrim where
  | undef
  | null
  | bool (b : Bool)
  | num (q : ℚ)
  | str (s : String)
  deriving DecidableEq, Repr

/-- A row value: a scalar or a flat array of scalars. -/
inductive JVal where
  | prim (p : JPrim)
  | arr (elems : List JPrim)
  deriving DecidableEq, Repr

/-- A result row (`JsonRecord` in the source): an object with scalar/array
fields.  Server rows have pairwise-distinct keys. -/
abbrev Row := List (String × JVal)

/-- JS property access `row.field`: `undefined` when the field is absent. -/
def getF (r : Row) (k : String) : JVal :=
  (r.lookup k).getD (.prim .undef)

/-- JS truthiness of a scalar. -/
def jsTruthyPrim : JPrim → Bool
  | .undef => false
  | .null => false
  | .bool b => b
  | .num q => q ≠ 0
  | .str s => s ≠ ""

/-- JS truthiness of a row value (arrays are always truthy objects). -/
def jsTruthy : JVal → Bool
  | .prim p => jsTruthyPrim p
  | .arr _ => true

/-- JS `String.prototype.trim()`: strip leading and trailing whitespace
(the JS whitespace set is approximated by `Char.isWhitespace`; server ids use
ASCII only). -/
def jsTrim (s : String) : String :=
  ⟨((s.data.dropWhile Char.isWhitespace).reverse.dropWhile Char.isWhitespace).reverse⟩

/-- `Math.trunc` on a (finite) JS number: round toward zero.  On a reduced
rational this is the truncating division of numerator by denominator. -/
def jsTruncQ (q : ℚ) : Int :=
  q.num.tdiv (q.den : Int)

/-- The value of an all-digit character list, `none` on any other list. -/
def digitsVal? (cs : List Char) : Option Nat :=
  match cs with
  | [] => none
  | _ =>
      cs.foldl
        (fun acc c =>
          match acc with
          | none => none
          | some n => if c.isDigit then some (n * 10 + (c.toNat - 48)) else none)
        (some 0)

/-- `Number(s)` for a string, truncated, with `NaN` mapped to `0` (the string
arm of `asInt`): trimmed decimal-integer strings (with optional sign) give
their value, the empty string gives `0`, anything else coerces to `NaN` and
hence `0`.  Fractional/hex/exponent forms also map to `0` here; no theorem
depends on them. -/
def jsStrToInt (s : String) : Int :=
  match (jsTrim s).data with
  | [] => 0
  | '-' :: c :: cs =>
      match digitsVal? (c :: cs) with
      | some n => -(n : Int)
      | none => 0
  | '+' :: c :: cs =>
      match digitsVal? (c :: cs) with
      | some n => (n : Int)
      | none => 0
  | cs =>
      match digitsVal? cs with
      | some n => (n : Int)
      | none => 0

/-- JS `String(p)` for a scalar.  Integral numbers render as in JS; the
rendering of non-integral numbers (JS shortest-double form) is approximated by
the rational literal — no theorem below depends on it. -/
def jsToStringPrim : JPrim → String
  | .undef => "undefined"
  | .null => "null"
  | .bool b => if b then "true" else "false"
  | .num q => if q.den = 1 then toString q.num else toString q
  | .str s => s

/-- JS `String(v)`: arrays join their elements with `,`, rendering `null` and
`undefined` elements as the empty string. -/
def jsToString : JVal → String
  | .prim p => jsToStringPrim p
  | .arr l =>
      String.intercalate ","
        (l.map fun p =>
          match p with
          | .undef => ""
          | .null => ""
          | p => jsToStringPrim p)

/-- `asInt` from the source: `Number(value)` then `Math.trunc`, and `0` for a
non-finite result.  `Number` of a decimal-integer string is that integer; other
string contents coerce to `NaN` (hence `0`) — `String.toInt?` models the
decimal-integer case, which is the only one server id/count fields produce.
`Number` of an array is `Number` of its joined string form. -/
def asIntPrim : JPrim → Int
  | .undef => 0
  | .null => 0
  | .bool b => if b then 1 else 0
  | .num q => jsTruncQ q
  | .str s => jsStrToInt s

def asInt : JVal → Int
  | .prim p => asIntPrim p
  | .arr [] => 0
  | .arr [p] =>
      match p with
      | .num q => jsTruncQ q
      | .str s => jsStrToInt s
      | _ => 0
  | .arr _ => 0

/-- JS loose `v == null`: true exactly for `null` and `undefined`. -/
def isNullish : JVal → Bool
  | .prim .null => true
  | .prim .undef => true
  | _ => false

/-- `undefined` serialises as `null` inside `JSON.stringify` of an array; the
dedup keys built in `referenceResolve` therefore identify the two. -/
def jnormPrim : JPrim → JPrim
  | .undef => .null
  | p => p

def jnorm : JVal → JVal
  | .prim p => .prim (jnormPrim p)
  | .arr l => .arr (l.map jnormPrim)

/-- The `typeof id === 'string' && id.trim().length > 0` filter used on
`sheet_id` fields: yields the (untrimmed) string when it passes. -/
def cleanStr? : JVal → Option String
  | .prim (.str s) => if jsTrim s = "" then none else some s
  | _ => none

/-! ## Local validation helpers (`requireText`, `parsePageSelector`) -/

/-- `requireText` from the source: trims, and throws when blank. -/
def requireText (value fieldName : String) : Except String String :=
  let text := jsTrim value
  if text = "" then .error (fieldName ++ " is required") else .ok text

/-- A `page` argument: a JS number or a textual selector. -/
inductive PageArg where
  | num (n : Int)
  | sel (s : String)
  deriving DecidableEq, Repr

/-- `parsePageSelector` from the source: numbers are stringified, selectors are
trimmed and must be non-blank; the selector is never expanded locally. -/
def parsePageSelector : PageArg → Except String String
  | .num n => .ok (toString n)
  | .sel s =>
      let text := jsTrim s
      if text = "" then .error "page is required" else .ok text

/-! ## Job polling (`Job.status` / `Job.wait`)

`Job.wait` is a fixed-interval polling loop over `Date.now()`.  The server's
answer to the `k`-th poll is `statuses k`; `latency k` is the wall-clock time
that poll takes.  The loop is embedded with explicit fuel; `timeoutMs + 1`
units suffice whenever the poll interval is at least one millisecond, because
each iteration advances the clock by at least `pollIntervalMs`. -/

/-- The fields of a job-status response that `wait` inspects. -/
structure JobStatusM where
  status : String
  result : Option Row := none
  error : Option String := none
  deriving DecidableEq, Repr

/-- How a `wait` call ends: the source returns the result payload, throws a
job-failure `APIError`, or throws a timeout `APIError`.  `noFuel` marks fuel
exhaustion of the embedding (a run that is still inside the loop). -/
inductive WaitOutcome where
  | success (result : Row)
  | jobFailed (msg : String)
  | timedOut (msg : String)
  | noFuel
  deriving DecidableEq, Repr

/-- A finished (or fuel-exhausted) run of `wait`: its outcome, how many status
polls it performed, and `Date.now() - start` at the moment it exited. -/
structure WaitExit where
  outcome : WaitOutcome
  polls : Nat
  elapsed : Nat
  deriving DecidableEq, Repr

/-- The body of `Job.wait`, one loop iteration per unit of fuel.  `elapsed` is
`Date.now() - start` at the loop guard; `k` counts polls already made. -/
def waitLoop (jobId : String) (timeoutMs pollIntervalMs : Nat)
    (statuses : Nat → JobStatusM) (latency : Nat → Nat) :
    Nat → Nat → Nat → WaitExit
  | 0, elapsed, k => ⟨.noFuel, k, elapsed⟩
  | fuel + 1, elapsed, k =>
      if elapsed < timeoutMs then
        let st := statuses k
        let afterPoll := elapsed + latency k
        if st.status = "complete" then
          ⟨.success (st.result.getD []), k + 1, afterPoll⟩
        else if st.status = "failed" then
          ⟨.jobFailed ("Job " ++ jobId ++ " failed: " ++ (st.error.getD "undefined")),
            k + 1, afterPoll⟩
        else
          waitLoop jobId timeoutMs pollIntervalMs statuses latency
            fuel (afterPoll + pollIntervalMs) (k + 1)
      else
        ⟨.timedOut ("Job " ++ jobId ++ " did not complete within " ++
            toString timeoutMs ++ "ms"), k, elapsed⟩

/-- `Job.wait(options)`: poll until terminal state or timeout. -/
def jobWait (jobId : String) (timeoutMs pollIntervalMs : Nat)
    (statuses : Nat → JobStatusM) (latency : Nat → Nat) : WaitExit :=
  waitLoop jobId timeoutMs pollIntervalMs statuses latency (timeoutMs + 1) 0 0

/-- Default `timeoutMs` of `Job.wait` (`?? 120_000` in the source). -/
def defaultTimeoutMs : Nat := 120000

/-- Default `pollIntervalMs` of `Job.wait` (`?? 2_000` in the source). -/
def defaultPollIntervalMs : Nat := 2000

/-- `Job.wait` with optional arguments, as called by users. -/
def jobWaitOpts (jobId : String) (timeoutMs? pollIntervalMs? : Option Nat)
    (statuses : Nat → JobStatusM) (latency : Nat → Nat) : WaitExit :=
  jobWait jobId (timeoutMs?.getD defaultTimeoutMs)
    (pollIntervalMs?.getD defaultPollIntervalMs) statuses latency

/-! ## `Sheets.add` result shaping and `JobBatch`

`Sheets.add` posts the ingestion form and turns the response's job descriptors
into `Job` handles; exactly one descriptor yields a bare `Job`, any other count
yields a `JobBatch`.  `JobBatch.statusAll` / `waitAll` are `Promise.all` over
the member jobs; `Promise.all` resolves to the member results in input order,
which is what the `List.map` model captures. -/

/-- A job descriptor of the ingestion response (`JobSummary` in the source). -/
structure JobSummaryM where
  job_id : String
  page : Int
  deriving DecidableEq, Repr

/-- The data of a constructed `Job` handle. -/
structure JobRec where
  projectId : String
  id : String
  page : Int
  deriving DecidableEq, Repr

/-- What `Sheets.add` returns: a single `Job` or a `JobBatch`. -/
inductive AddResult where
  | single (job : JobRec)
  | batch (jobs : List JobRec)
  deriving DecidableEq, Repr

/-- `(response.jobs ?? []).map((item) => new Job(client, projectId, item.job_id, item.page))`. -/
def jobsOf (projectId : String) (respJobs : Option (List JobSummaryM)) : List JobRec :=
  (respJobs.getD []).map fun item => ⟨projectId, item.job_id, item.page⟩

/-- The final shaping step of `Sheets.add`: `jobs.length === 1 ? jobs[0] : new JobBatch(jobs)`. -/
def sheetsAddShape (projectId : String) (respJobs : Option (List JobSummaryM)) : AddResult :=
  match jobsOf projectId respJobs with
  | [job] => .single job
  | jobs => .batch jobs

/-- `JobBatch.ids`. -/
def batchIds (jobs : List JobRec) : List String :=
  jobs.map (·.id)

/-- `JobBatch.statusAll()`: one status poll per member job, results in member
order (`Promise.all` order semantics). -/
def batchStatusAll (jobs : List JobRec) (statusOf : JobRec → JobStatusM) : List JobStatusM :=
  jobs.map statusOf

/-- `JobBatch.waitAll(options)`: `job.wait(options)` per member job, results in
member order (`Promise.all` order semantics). -/
def batchWaitAll (jobs : List JobRec) (timeoutMs pollIntervalMs : Nat)
    (statusesFor : JobRec → Nat → JobStatusM) (latencyFor : JobRec → Nat → Nat) :
    List WaitExit :=
  jobs.map fun j => jobWait j.id timeoutMs pollIntervalMs (statusesFor j) (latencyFor j)

/-! ## Ingestion front ends (`Drawings.analyze`, `Sheets.add`)

These validate the file/file-hash contract, optionally probe the drawing
cache, and then issue the main multipart POST.  The embedding records the
HTTP requests each run issues, in order, together with the multipart form the
main POST would carry; the outcome of the main POST itself is external.  The
cache probe's outcome is the input `probe` (`.ok cached` for an HTTP success,
`.error e` for a thrown transport/API error). -/

/-- An `Uploadable` argument: a file path string or a binary object
(Blob / ArrayBuffer / view — always truthy). -/
inductive Upl where
  | path (s : String)
  | blob
  deriving DecidableEq, Repr

/-- JS truthiness of the `file` argument (`null`, and the empty path string,
are falsy). -/
def jsTruthyFile : Option Upl → Bool
  | none => false
  | some (.path s) => s ≠ ""
  | some .blob => true

/-- JS truthiness of the optional `fileHash` string. -/
def jsTruthyHash : Option String → Bool
  | none => false
  | some s => s ≠ ""

/-- The multipart form of the main ingestion/analysis POST, reduced to the
fields the client decides on: the `page` value, whether a `file_hash` field is
appended (and with what value), whether the file bytes are appended, and the
optional `Sheets.add` passthrough fields. -/
structure IngestForm where
  page : String
  file_hash : Option String := none
  has_file : Bool := false
  source_description : Option String := none
  on_sheet_exists : Option String := none
  community_update_mode : Option String := none
  semantic_index_update_mode : Option String := none
  deriving DecidableEq, Repr

/-- An HTTP request issued by an ingestion run. -/
inductive ReqTag where
  | cacheProbe (hash : String)
  | postDrawings (form : IngestForm)
  | postSheets (form : IngestForm)
  deriving DecidableEq, Repr

/-- The file/file-hash state after the optional cache-probe step shared by the
ingestion front ends: on a cached hit the hash replaces the file. -/
def afterCacheHit (computedHash : String) (cached : Bool)
    (file : Option Upl) (fileHash : Option String) : Option Upl × Option String :=
  if cached then (none, some computedHash) else (file, fileHash)

/-- `Drawings.analyze` in `src/js/src/index.ts`: validation, then an
*unprotected* cache probe (`await this.checkCache(...)` with no try/catch —
a probe failure propagates), then the `/drawings` POST. -/
def drawingsAnalyzeRun (file0 : Option Upl) (page : Int) (fileHash0 : Option String)
    (computedHash : String) (probe : Except String Bool) :
    List ReqTag × Except String Unit :=
  if jsTruthyHash fileHash0 ∧ jsTruthyFile file0 then
    ([], .error "Provide file or fileHash, not both.")
  else if ¬jsTruthyHash fileHash0 ∧ ¬jsTruthyFile file0 then
    ([], .error "Provide file or fileHash.")
  else
    let probeStep : Except String (Option Upl × Option String) × List ReqTag :=
      if ¬jsTruthyHash fileHash0 ∧ jsTruthyFile file0 then
        match probe with
        | .error e => (.error e, [.cacheProbe computedHash])
        | .ok cached => (.ok (afterCacheHit computedHash cached file0 fileHash0),
            [.cacheProbe computedHash])
      else (.ok (file0, fileHash0), [])
    match probeStep with
    | (.error e, trace) => (trace, .error e)
    | (.ok (file, fileHash), trace) =>
        let form : IngestForm :=
          { page := toString page
            file_hash := if jsTruthyHash fileHash then fileHash else none
            has_file := jsTruthyFile file }
        (trace ++ [.postDrawings form], .ok ())

/-- The optional `Sheets.add` passthrough fields. -/
structure AddOpts where
  sourceDescription : Option String := none
  onSheetExists : Option String := none
  communityUpdateMode : Option String := none
  semanticIndexUpdateMode : Option String := none
  deriving DecidableEq, Repr

/-- The form-building tail shared by both `Sheets.add` variants: parse the page
selector (which can itself throw), then append the form fields.
`source_description` is appended whenever defined (`!== undefined`), the mode
fields only when truthy. -/
def sheetsFormOf (page : PageArg) (opts : AddOpts)
    (file : Option Upl) (fileHash : Option String) : Except String IngestForm :=
  match parsePageSelector page with
  | .error e => .error e
  | .ok pageText =>
      .ok { page := pageText
            file_hash := if jsTruthyHash fileHash then fileHash else none
            has_file := jsTruthyFile file
            source_description := opts.sourceDescription
            on_sheet_exists :=
              if jsTruthyHash opts.onSheetExists then opts.onSheetExists else none
            community_update_mode :=
              if jsTruthyHash opts.communityUpdateMode then opts.communityUpdateMode else none
            semantic_index_update_mode :=
              if jsTruthyHash opts.semanticIndexUpdateMode then opts.semanticIndexUpdateMode
              else none }

/-- `Sheets.add` in `src/js/src/index.ts`: validation, an *unprotected* cache
probe (a probe failure propagates), then the `/projects/{id}/sheets` POST. -/
def sheetsAddRunIndexTs (file0 : Option Upl) (page : PageArg) (fileHash0 : Option String)
    (opts : AddOpts) (computedHash : String) (probe : Except String Bool) :
    List ReqTag × Except String Unit :=
  if jsTruthyHash fileHash0 ∧ jsTruthyFile file0 then
    ([], .error "Provide file or fileHash, not both.")
  else if ¬jsTruthyHash fileHash0 ∧ ¬jsTruthyFile file0 then
    ([], .error "Provide file or fileHash.")
  else
    let probeStep : Except String (Option Upl × Option String) × List ReqTag :=
      if ¬jsTruthyHash fileHash0 ∧ jsTruthyFile file0 then
        match probe with
        | .error e => (.error e, [.cacheProbe computedHash])
        | .ok cached => (.ok (afterCacheHit computedHash cached file0 fileHash0),
            [.cacheProbe computedHash])
      else (.ok (file0, fileHash0), [])
    match probeStep with
    | (.error e, trace) => (trace, .error e)
    | (.ok (file, fileHash), trace) =>
        match sheetsFormOf page opts file fileHash with
        | .error e => (trace, .error e)
        | .ok form => (trace ++ [.postSheets form], .ok ())

/-- `Sheets.add` in the variant SDK `src/unnamed/part_003`: identical except
the cache probe sits in a `try { ... } catch { /* Fail open */ }` — a probe
failure is swallowed and the run continues with the file bytes. -/
def sheetsAddRunPart003 (file0 : Option Upl) (page : PageArg) (fileHash0 : Option String)
    (opts : AddOpts) (computedHash : String) (probe : Except String Bool) :
    List ReqTag × Except String Unit :=
  if jsTruthyHash fileHash0 ∧ jsTruthyFile file0 then
    ([], .error "Provide file or fileHash, not both.")
  else if ¬jsTruthyHash fileHash0 ∧ ¬jsTruthyFile file0 then
    ([], .error "Provide file or fileHash.")
  else
    let probeStep : (Option Upl × Option String) × List ReqTag :=
      if ¬jsTruthyHash fileHash0 ∧ jsTruthyFile file0 then
        match probe with
        | .error _ => ((file0, fileHash0), [.cacheProbe computedHash])
        | .ok cached => (afterCacheHit computedHash cached file0 fileHash0,
            [.cacheProbe computedHash])
      else ((file0, fileHash0), [])
    match probeStep with
    | ((file, fileHash), trace) =>
        match sheetsFormOf page opts file fileHash with
        | .error e => (trace, .error e)
        | .ok form => (trace ++ [.postSheets form], .ok ())

/-! ## DocQuery aggregator

Each aggregator composes several cypher calls and shapes the row sets
client-side.  The row sets are inputs (`records(payload)` already applied:
the object rows of each payload).  Alongside its result, each run reports the
cypher calls it issued — their `max_rows` cap and, where the call binds a
row-limit parameter (`$orphan_limit`, `$limit`), that parameter. -/

/-- One issued cypher call, reduced to its row caps (the query text is a
constant in the source and is elided). -/
structure CypherCall where
  maxRows : Int
  limit_param : Option Int := none
  deriving DecidableEq, Repr

/-- `Math.max(1, Math.min(Math.trunc(options?.orphanLimit ?? 10), 200))`
(`DocQuery.sheetSummary`, line 700). -/
def orphanLimitOf (orphanLimit? : Option ℚ) : Int :=
  max 1 (min (jsTruncQ (orphanLimit?.getD 10)) 200)

/-- `Math.max(1, Math.min(Math.trunc(options?.limit ?? 100), 200))`
(`DocQuery.referenceResolve`, line 935). -/
def refLimitOf (limit? : Option ℚ) : Int :=
  max 1 (min (jsTruncQ (limit?.getD 100)) 200)

/-- The `reachability` block of a sheet-summary report. -/
structure Reachability where
  has_sheet_node : Bool
  sheet_node_count : Int
  non_sheet_total : Int
  reachable_non_sheet : Int
  unreachable_non_sheet : Int
  deriving DecidableEq, Repr

/-- The reachability defaults, overwritten from the first reachability row when
the query returned one; `unreachable_non_sheet` is
`Math.max(0, nonSheetTotal - reachableNonSheet)`. -/
def computeReachability (reachabilityRows : List Row) : Reachability :=
  match reachabilityRows with
  | [] => ⟨false, 0, 0, 0, 0⟩
  | first :: _ =>
      let hasSheetNode := jsTruthy (getF first "has_sheet_node")
      let sheetNodeCount := asInt (getF first "sheet_node_count")
      let nonSheetTotal := asInt (getF first "non_sheet_total")
      let reachableNonSheet := asInt (getF first "reachable_non_sheet")
      ⟨hasSheetNode, sheetNodeCount, nonSheetTotal, reachableNonSheet,
        max 0 (nonSheetTotal - reachableNonSheet)⟩

/-- A derived warning record (`{ type, message }`). -/
structure SummaryWarning where
  wtype : String
  message : String
  deriving DecidableEq, Repr

/-- The three derived sheet-summary warnings, in push order. -/
def summaryWarnings (cleanSheetId : String) (r : Reachability) : List SummaryWarning :=
  (if ¬r.has_sheet_node then
      [⟨"missing_sheet_node",
        "No :Entity:Sheet node found for sheet_id=" ++ cleanSheetId ++ "."⟩]
    else []) ++
  (if r.sheet_node_count > 1 then
      [⟨"duplicate_sheet_nodes",
        "Found " ++ toString r.sheet_node_count ++ " Sheet nodes for sheet_id=" ++
          cleanSheetId ++ "; expected 1."⟩]
    else []) ++
  (if r.unreachable_non_sheet > 0 then
      [⟨"unreachable_entities",
        toString r.unreachable_non_sheet ++
          " non-sheet entities are not reachable from sheet " ++ cleanSheetId ++
          " via LOCATED_IN*1..2."⟩]
    else [])

/-- The sheet-summary report. -/
structure SheetSummaryResult where
  ok : Bool
  command : String
  input_project_id : String
  input_sheet_id : String
  input_orphan_limit : Int
  sheet_node : Option Row
  node_label_counts : List Row
  relationship_counts : List Row
  reachability : Reachability
  orphan_examples : List Row
  warnings : List SummaryWarning
  deriving DecidableEq, Repr

/-- The body of `DocQuery.sheetSummary` after the `requireText` validation:
shape the report from the five cypher row sets (sheet node, label counts,
relationship counts, reachability, orphan examples), and report the issued
calls. -/
def sheetSummaryCore (projectId cleanSheetId : String) (orphanLimit : Int)
    (sheetRows labelRows relRows reachabilityRows orphanRows : List Row) :
    SheetSummaryResult × List CypherCall :=
  let reachability := computeReachability reachabilityRows
  ({ ok := true
     command := "sheet-summary"
     input_project_id := projectId
     input_sheet_id := cleanSheetId
     input_orphan_limit := orphanLimit
     sheet_node := sheetRows.head?
     node_label_counts := labelRows
     relationship_counts := relRows
     reachability := reachability
     orphan_examples := orphanRows
     warnings := summaryWarnings cleanSheetId reachability },
   [⟨1, none⟩, ⟨500, none⟩, ⟨500, none⟩, ⟨1, none⟩,
    ⟨orphanLimit, some orphanLimit⟩])

/-- `DocQuery.sheetSummary`: validate the sheet id, normalise the orphan
limit, issue five cypher calls (row sets supplied as inputs here) and shape
the report. -/
def sheetSummaryRun (projectId sheetId : String) (orphanLimit? : Option ℚ)
    (sheetRows labelRows relRows reachabilityRows orphanRows : List Row) :
    Except String (SheetSummaryResult × List CypherCall) :=
  match requireText sheetId "sheet_id" with
  | .error e => .error e
  | .ok cleanSheetId =>
      .ok (sheetSummaryCore projectId cleanSheetId (orphanLimitOf orphanLimit?)
        sheetRows labelRows relRows reachabilityRows orphanRows)

/-! ### `DocQuery.sheetList` -/

/-- Insertion step of the string sort (JS `Array.prototype.sort()` default
lexicographic order; it differs from `≤` on `String` only on surrogate-range
characters, which server sheet ids do not contain). -/
def insertSorted (x : String) : List String → List String
  | [] => [x]
  | y :: ys => if x ≤ y then x :: y :: ys else y :: insertSorted x ys

def sortStrings (l : List String) : List String :=
  l.foldr insertSorted []

/-- `new Set(array)`: deduplicate keeping first occurrences. -/
def jsSet (l : List String) : List String :=
  l.foldl (fun acc x => if x ∈ acc then acc else acc ++ [x]) []

/-- The sheet-id set of a row list: map `row.sheet_id`, keep non-blank
strings, deduplicate (`sheetNodeIds` / `inventoryIds` in the source). -/
def idsOfRows (rows : List Row) : List String :=
  jsSet (rows.filterMap fun row => cleanStr? (getF row "sheet_id"))

/-- `inventoryCounts`: a `Map` from clean inventory sheet ids to
`asInt(row.entity_count)`; a later row for the same id overwrites. -/
def inventoryCountsOf (inventory : List Row) : String → Option Int :=
  inventory.foldl
    (fun acc row =>
      match cleanStr? (getF row "sheet_id") with
      | some s => fun k => if k = s then some (asInt (getF row "entity_count")) else acc k
      | none => acc)
    (fun _ => none)

/-- `inventory.reduce((sum, row) => sum + asInt(row.entity_count), 0)`. -/
def totalEntitiesOf (inventory : List Row) : Int :=
  inventory.foldl (fun sum row => sum + asInt (getF row "entity_count")) 0

/-- `missingSheetIdCount`: first row's counter, `0` when the query returned no
rows. -/
def missingCountOf (missingRows : List Row) : Int :=
  match missingRows with
  | [] => 0
  | first :: _ => asInt (getF first "missing_sheet_id_count")

/-- A sheet-list mismatch warning; unused payload fields keep their defaults. -/
structure ListWarning where
  wtype : String
  sheet_ids : List String := []
  duplicates : List Row := []
  count : Int := 0
  message : String
  deriving DecidableEq, Repr

/-- The five mismatch-warning classes of `sheetList`, in push order. -/
def mismatchWarningsOf (sheetNodes inventory duplicateSheetNodes : List Row)
    (missingSheetIdCount : Int) : List ListWarning :=
  let sheetNodeIds := idsOfRows sheetNodes
  let inventoryIds := idsOfRows inventory
  let inventoryCounts := inventoryCountsOf inventory
  let inventoryWithoutSheetNode :=
    sortStrings (inventoryIds.filter fun id => !sheetNodeIds.contains id)
  let sheetNodesWithoutInventory :=
    sortStrings (sheetNodeIds.filter fun id => !inventoryIds.contains id)
  let sheetNodesWithOnlySelf :=
    sortStrings (sheetNodeIds.filter fun id => (inventoryCounts id).getD 0 == 1)
  (if inventoryWithoutSheetNode.length > 0 then
      [{ wtype := "inventory_sheet_id_without_sheet_node"
         sheet_ids := inventoryWithoutSheetNode
         message := "Entities exist for sheet_id values that do not have a Sheet node." }]
    else []) ++
  (if sheetNodesWithoutInventory.length > 0 then
      [{ wtype := "sheet_node_without_inventory"
         sheet_ids := sheetNodesWithoutInventory
         message := "Sheet nodes exist with no matching entity inventory rows." }]
    else []) ++
  (if duplicateSheetNodes.length > 0 then
      [{ wtype := "duplicate_sheet_nodes"
         duplicates := duplicateSheetNodes
         message := "Multiple Sheet nodes found for one or more sheet_id values." }]
    else []) ++
  (if missingSheetIdCount > 0 then
      [{ wtype := "entities_missing_sheet_id"
         count := missingSheetIdCount
         message := "Some entities are missing sheet_id." }]
    else []) ++
  (if sheetNodesWithOnlySelf.length > 0 then
      [{ wtype := "sheet_nodes_without_non_sheet_entities"
         sheet_ids := sheetNodesWithOnlySelf
         message := "Sheet IDs where inventory count is only the Sheet node itself." }]
    else [])

/-- The sheet-list report. -/
structure SheetListResult where
  ok : Bool
  command : String
  input_project_id : String
  sheet_nodes : List Row
  entity_sheet_inventory : List Row
  totals_sheet_node_count : Int
  totals_inventory_sheet_id_count : Int
  totals_total_entities : Int
  totals_missing_sheet_id_count : Int
  mismatch_warnings : List ListWarning
  deriving DecidableEq, Repr

/-- `DocQuery.sheetList`: four cypher calls (sheet nodes, per-sheet inventory,
duplicate sheet nodes, missing-sheet-id count — row sets supplied as inputs)
followed by pure client-side set algebra. -/
def sheetListRun (projectId : String)
    (sheetNodes inventory duplicateSheetNodes missingRows : List Row) :
    SheetListResult × List CypherCall :=
  let missingSheetIdCount := missingCountOf missingRows
  ({ ok := true
     command := "sheet-list"
     input_project_id := projectId
     sheet_nodes := sheetNodes
     entity_sheet_inventory := inventory
     totals_sheet_node_count := sheetNodes.length
     totals_inventory_sheet_id_count := (idsOfRows inventory).length
     totals_total_entities := totalEntitiesOf inventory
     totals_missing_sheet_id_count := missingSheetIdCount
     mismatch_warnings :=
       mismatchWarningsOf sheetNodes inventory duplicateSheetNodes missingSheetIdCount },
   [⟨5000, none⟩, ⟨5000, none⟩, ⟨200, none⟩, ⟨1, none⟩])

/-! ### `DocQuery.referenceResolve` -/

/-- One hop of a `traversal_path` entry. -/
structure Hop where
  from_uuid : JVal
  rel_type : String
  to_uuid : JVal
  deriving DecidableEq, Repr

/-- A resolved-reference entry, mirroring the object pushed by the source
(`relationship`, `target`, `target_context`, `checks`, `traversal_path`). -/
structure ResolvedRef where
  rel_uuid : JVal
  fact : JVal
  source_sheet_ids : JVal
  meta_target_sheet : JVal
  meta_target_detail_id : JVal
  meta_target_section_id : JVal
  meta_target_kind : JVal
  target_uuid : JVal
  target_labels : JVal
  target_sheet_id : JVal
  target_detail_id : JVal
  target_section_id : JVal
  target_category : JVal
  target_name : JVal
  loc1_uuid : JVal
  loc1_labels : JVal
  loc1_name : JVal
  loc2_uuid : JVal
  loc2_labels : JVal
  loc2_name : JVal
  target_sheet_matches_meta_target_sheet : Option Bool
  target_sheet_in_source_target_sheets : Option Bool
  traversal_path : List Hop
  deriving DecidableEq, Repr

/-- A reference-resolve warning record. -/
structure RefWarning where
  wtype : String
  rel_uuid : Option JVal := none
  message : String
  deriving DecidableEq, Repr

/-- The dedup key of a reference row:
`JSON.stringify([relUuid, targetUuid, loc1Uuid, loc2Uuid])` — stringify
equality on these values is structural equality after collapsing `undefined`
to `null`. -/
def refKeyOf (row : Row) : JVal × JVal × JVal × JVal :=
  (jnorm (getF row "rel_uuid"), jnorm (getF row "target_uuid"),
   jnorm (getF row "target_located_in_uuid_1"),
   jnorm (getF row "target_located_in_uuid_2"))

/-- Build the entry pushed for one kept row, together with the consistency
warnings pushed right after it. -/
def mkResolvedRef (sourceTargetSheets : List String) (nodeUuid : String)
    (row : Row) : ResolvedRef × List RefWarning :=
  let relUuid := getF row "rel_uuid"
  let targetUuid := getF row "target_uuid"
  let targetSheetId := getF row "target_sheet_id"
  let metaTargetSheet := getF row "meta_target_sheet"
  let sheetMatchMeta : Option Bool :=
    if ¬isNullish targetSheetId ∧ ¬isNullish metaTargetSheet then
      some (jsToString targetSheetId = jsToString metaTargetSheet)
    else none
  let sheetInSourceTargets : Option Bool :=
    if ¬isNullish targetSheetId ∧ sourceTargetSheets.length > 0 then
      some (sourceTargetSheets.contains (jsToString targetSheetId))
    else none
  let loc1 := getF row "target_located_in_uuid_1"
  let loc2 := getF row "target_located_in_uuid_2"
  let traversalPath : List Hop :=
    [⟨.prim (.str nodeUuid), "REFERENCES", targetUuid⟩] ++
    (if jsTruthy loc1 then [⟨targetUuid, "LOCATED_IN", loc1⟩] else []) ++
    (if jsTruthy loc2 then [⟨loc1, "LOCATED_IN", loc2⟩] else [])
  (⟨relUuid, getF row "fact", getF row "source_sheet_ids", metaTargetSheet,
    getF row "meta_target_detail_id", getF row "meta_target_section_id",
    getF row "meta_target_kind", targetUuid, getF row "target_labels",
    targetSheetId, getF row "target_detail_id", getF row "target_section_id",
    getF row "target_category", getF row "target_name",
    loc1, getF row "target_located_in_labels_1", getF row "target_located_in_name_1",
    loc2, getF row "target_located_in_labels_2", getF row "target_located_in_name_2",
    sheetMatchMeta, sheetInSourceTargets, traversalPath⟩,
   (if sheetMatchMeta = some false then
       [{ wtype := "meta_target_sheet_mismatch"
          rel_uuid := some relUuid
          message := "Target sheet_id does not match relationship meta_target_sheet." }]
     else []) ++
   (if sheetInSourceTargets = some false then
       [{ wtype := "source_target_sheets_mismatch"
          rel_uuid := some relUuid
          message := "Target sheet_id is not listed in source target_sheets." }]
     else []))

/-- The dedup loop over reference rows: skip rows whose relationship and
target ids are both nullish, skip rows whose composite key was already seen,
otherwise push the entry and its warnings. -/
def resolveLoop (sourceTargetSheets : List String) (nodeUuid : String) :
    List Row → List (JVal × JVal × JVal × JVal) → List ResolvedRef × List RefWarning
  | [], _ => ([], [])
  | row :: rest, seen =>
      if isNullish (getF row "rel_uuid") ∧ isNullish (getF row "target_uuid") then
        resolveLoop sourceTargetSheets nodeUuid rest seen
      else
        let key := refKeyOf row
        if key ∈ seen then
          resolveLoop sourceTargetSheets nodeUuid rest seen
        else
          let made := mkResolvedRef sourceTargetSheets nodeUuid row
          let rec_out := resolveLoop sourceTargetSheets nodeUuid rest (key :: seen)
          (made.1 :: rec_out.1, made.2 ++ rec_out.2)

/-- The reference-resolve report. -/
structure RefResolveResult where
  ok : Bool
  command : String
  input_project_id : String
  input_uuid : String
  input_limit : Int
  found : Bool
  source : Option Row
  resolved_references : List ResolvedRef
  count : Int
  warnings : List RefWarning
  deriving DecidableEq, Repr

/-- `source.labels` as used by the source: an array filtered to its strings,
`[]` otherwise. -/
def sourceLabelsOf (source : Row) : List String :=
  match getF source "labels" with
  | .arr l => l.filterMap fun p => match p with | .str s => some s | _ => none
  | _ => []

/-- `source.target_sheets` as used by the source: an array mapped through
`String(...)`, `[]` otherwise. -/
def sourceTargetSheetsOf (source : Row) : List String :=
  match getF source "target_sheets" with
  | .arr l => l.map fun p => jsToStringPrim p
  | _ => []

/-- `DocQuery.referenceResolve`: validate the uuid, normalise the limit, look
up the source node (1 row cap); when absent return the `source_not_found`
report, otherwise run the traversal query (`LIMIT $limit`), deduplicate rows
by composite key, derive per-reference checks and warnings, and append the
`source_not_callout` / `no_outgoing_references` warnings. -/
def referenceResolveCore (projectId nodeUuid : String) (limit : Int)
    (sourceRows referenceRows : List Row) :
    RefResolveResult × List CypherCall :=
  match sourceRows with
  | [] =>
      ({ ok := true
         command := "reference-resolve"
         input_project_id := projectId
         input_uuid := nodeUuid
         input_limit := limit
         found := false
         source := none
         resolved_references := []
         count := 0
         warnings := [{ wtype := "source_not_found"
                        message := "No source node found for uuid." }] },
       [⟨1, none⟩])
  | source :: _ =>
      let sourceLabels := sourceLabelsOf source
      let sourceTargetSheets := sourceTargetSheetsOf source
      let loopOut := resolveLoop sourceTargetSheets nodeUuid referenceRows []
      let resolvedReferences := loopOut.1
      let loopWarnings := loopOut.2
      let warnings :=
        loopWarnings ++
        (if ¬sourceLabels.contains "Callout" then
            [{ wtype := "source_not_callout"
               message := "Source node is not labeled Callout; references may still exist." }]
          else []) ++
        (if resolvedReferences.length = 0 then
            [{ wtype := "no_outgoing_references"
               message := "No outgoing REFERENCES edges found for this source node." }]
          else [])
      ({ ok := true
         command := "reference-resolve"
         input_project_id := projectId
         input_uuid := nodeUuid
         input_limit := limit
         found := true
         source := some source
         resolved_references := resolvedReferences
         count := resolvedReferences.length
         warnings := warnings },
       [⟨1, none⟩, ⟨limit, some limit⟩])

/-- `DocQuery.referenceResolve` proper: `requireText` then the core above. -/
def referenceResolveRun (projectId uuid : String) (limit? : Option ℚ)
    (sourceRows referenceRows : List Row) :
    Except String (RefResolveResult × List CypherCall) :=
  match requireText uuid "uuid" with
  | .error e => .error e
  | .ok nodeUuid =>
      .ok (referenceResolveCore projectId nodeUuid (refLimitOf limit?)
        sourceRows referenceRows)

/-! ## General helper lemmas -/

/-- `needle` occurs as a substring of `haystack`. -/
def strContains (haystack needle : String) : Prop :=
  ∃ pre post, haystack.data = pre ++ needle.data ++ post

instance {ε α : Type} [DecidableEq ε] [DecidableEq α] : DecidableEq (Except ε α)
  | .error e, .error f =>
      if h : e = f then .isTrue (congrArg Except.error h)
      else .isFalse fun c => h (Except.error.inj c)
  | .error _, .ok _ => .isFalse fun c => Except.noConfusion c
  | .ok _, .error _ => .isFalse fun c => Except.noConfusion c
  | .ok a, .ok b =>
      if h : a = b then .isTrue (congrArg Except.ok h)
      else .isFalse fun c => h (Except.ok.inj c)

theorem computeReachability_unreachable (rows : List Row) :
    (computeReachability rows).unreachable_non_sheet =
      max 0 ((computeReachability rows).non_sheet_total -
        (computeReachability rows).reachable_non_sheet) := by
  cases rows <;> simp [computeReachability]

theorem summaryWarnings_missing_iff (cleanSheetId : String) (r : Reachability) :
    (∃ w ∈ summaryWarnings cleanSheetId r, w.wtype = "missing_sheet_node") ↔
      r.has_sheet_node = false := by
  unfold summaryWarnings
  by_cases h1 : r.has_sheet_node <;>
    by_cases h2 : r.sheet_node_count > 1 <;>
      by_cases h3 : r.unreachable_non_sheet > 0 <;>
        simp [h1, h2, h3]

theorem sheetSummaryRun_ok (projectId sheetId : String) (orphanLimit? : Option ℚ)
    (sheetRows labelRows relRows reachabilityRows orphanRows : List Row)
    (res : SheetSummaryResult) (calls : List CypherCall)
    (h : sheetSummaryRun projectId sheetId orphanLimit? sheetRows labelRows relRows
        reachabilityRows orphanRows = .ok (res, calls)) :
    res = (sheetSummaryCore projectId (jsTrim sheetId) (orphanLimitOf orphanLimit?)
      sheetRows labelRows relRows reachabilityRows orphanRows).1 := by
  unfold sheetSummaryRun requireText at h
  by_cases hb : jsTrim sheetId = "" <;> simp [hb] at h
  exact (congrArg Prod.fst h).symm

/-- C1: every sheetSummary call returns a reachability record with
`unreachable_non_sheet = max(0, non_sheet_total - reachable_non_sheet)`, and
its warnings contain a `missing_sheet_node` entry exactly when
`has_sheet_node` is false (including the zero-row default case). -/
theorem C1_sheetSummary_unreachable_and_missing_warning
    (projectId sheetId : String) (orphanLimit? : Option ℚ)
    (sheetRows labelRows relRows reachabilityRows orphanRows : List Row)
    (res : SheetSummaryResult) (calls : List CypherCall)
    (h : sheetSummaryRun projectId sheetId orphanLimit? sheetRows labelRows relRows
        reachabilityRows orphanRows = .ok (res, calls)) :
    res.reachability.unreachable_non_sheet =
      max 0 (res.reachability.non_sheet_total - res.reachability.reachable_non_sheet) ∧
    ((∃ w ∈ res.warnings, w.wtype = "missing_sheet_node") ↔
      res.reachability.has_sheet_node = false) := by
  rw [sheetSummaryRun_ok projectId sheetId orphanLimit? sheetRows labelRows relRows
    reachabilityRows orphanRows res calls h]
  exact ⟨computeReachability_unreachable reachabilityRows,
    summaryWarnings_missing_iff (jsTrim sheetId) (computeReachability reachabilityRows)⟩

/-- The reachability row of the vitest sheet-summary scenario. -/
def reachRowS111 : Row :=
  [("has_sheet_node", .prim (.bool false)), ("sheet_node_count", .prim (.num 0)),
   ("non_sheet_total", .prim (.num 3)), ("reachable_non_sheet", .prim (.num 1))]

theorem C1_sheetSummary_witness :
    (sheetSummaryRun "p1" "S111" (some 5) [] [] [] [reachRowS111] [] =
      .ok (sheetSummaryCore "p1" (jsTrim "S111") (orphanLimitOf (some 5))
        [] [] [] [reachRowS111] [])) ∧
    ((sheetSummaryCore "p1" (jsTrim "S111") (orphanLimitOf (some 5))
        [] [] [] [reachRowS111] []).1.reachability.unreachable_non_sheet =
      max 0 ((sheetSummaryCore "p1" (jsTrim "S111") (orphanLimitOf (some 5))
        [] [] [] [reachRowS111] []).1.reachability.non_sheet_total -
        (sheetSummaryCore "p1" (jsTrim "S111") (orphanLimitOf (some 5))
          [] [] [] [reachRowS111] []).1.reachability.reachable_non_sheet)) ∧
    ((∃ w ∈ (sheetSummaryCore "p1" (jsTrim "S111") (orphanLimitOf (some 5))
        [] [] [] [reachRowS111] []).1.warnings, w.wtype = "missing_sheet_node") ↔
      (sheetSummaryCore "p1" (jsTrim "S111") (orphanLimitOf (some 5))
        [] [] [] [reachRowS111] []).1.reachability.has_sheet_node = false) := by
  have hrun : sheetSummaryRun "p1" "S111" (some 5) [] [] [] [reachRowS111] [] =
      .ok (sheetSummaryCore "p1" (jsTrim "S111") (orphanLimitOf (some 5))
        [] [] [] [reachRowS111] []) := by decide
  refine ⟨hrun, ?_, ?_⟩
  · exact (C1_sheetSummary_unreachable_and_missing_warning "p1" "S111" (some 5)
      [] [] [] [reachRowS111] [] _ _ hrun).1
  · exact (C1_sheetSummary_unreachable_and_missing_warning "p1" "S111" (some 5)
      [] [] [] [reachRowS111] [] _ _ hrun).2

/-- C3: a `wait` whose first poll reports `failed` throws the job-failure
error — its message embeds the job id and the server error string — after
exactly one poll. -/
theorem C3_wait_failed_raises_once
    (jobId : String) (timeoutMs pollIntervalMs : Nat)
    (statuses : Nat → JobStatusM) (latency : Nat → Nat) (errMsg : String)
    (htimeout : 0 < timeoutMs)
    (hfailed : (statuses 0).status = "failed")
    (herr : (statuses 0).error = some errMsg) :
    (jobWait jobId timeoutMs pollIntervalMs statuses latency).outcome =
      .jobFailed ("Job " ++ jobId ++ " failed: " ++ errMsg) ∧
    (jobWait jobId timeoutMs pollIntervalMs statuses latency).polls = 1 ∧
    strContains ("Job " ++ jobId ++ " failed: " ++ errMsg) jobId ∧
    strContains ("Job " ++ jobId ++ " failed: " ++ errMsg) errMsg := by
  refine ⟨?_, ?_, ?_, ?_⟩
  · unfold jobWait
    rw [waitLoop]
    simp [htimeout, hfailed, herr]
  · unfold jobWait
    rw [waitLoop]
    simp [htimeout, hfailed, herr]
  · exact ⟨"Job ".data, (" failed: " ++ errMsg).data, by simp⟩
  · exact ⟨("Job " ++ jobId ++ " failed: ").data, [], by simp⟩

theorem C3_wait_failed_witness :
    (jobWait "job_1" 120000 2000 (fun _ => ⟨"failed", none, some "boom"⟩)
        (fun _ => 0)).outcome = .jobFailed ("Job " ++ "job_1" ++ " failed: " ++ "boom") ∧
    (jobWait "job_1" 120000 2000 (fun _ => ⟨"failed", none, some "boom"⟩)
        (fun _ => 0)).polls = 1 ∧
    strContains ("Job " ++ "job_1" ++ " failed: " ++ "boom") "job_1" ∧
    strContains ("Job " ++ "job_1" ++ " failed: " ++ "boom") "boom" :=
  C3_wait_failed_raises_once "job_1" 120000 2000
    (fun _ => ⟨"failed", none, some "boom"⟩) (fun _ => 0) "boom"
    (by decide) rfl rfl

/-- C5: a single-descriptor ingestion response yields a bare `Job`, never a
one-element `JobBatch`. -/
theorem C5_single_descriptor_single_job (projectId : String) (j : JobSummaryM) :
    sheetsAddShape projectId (some [j]) = .single ⟨projectId, j.job_id, j.page⟩ :=
  rfl

/-- C8: supplying both a (truthy) file and a (truthy) file hash makes
`drawings.analyze` and `sheets.add` (both variants) throw the validation error
with an empty request trace — no HTTP request is issued. -/
theorem C8_both_inputs_validation_before_network
    (file0 : Option Upl) (page : Int) (pageArg : PageArg) (fileHash0 : Option String)
    (opts : AddOpts) (computedHash : String) (probe : Except String Bool)
    (hfile : jsTruthyFile file0 = true) (hhash : jsTruthyHash fileHash0 = true) :
    drawingsAnalyzeRun file0 page fileHash0 computedHash probe =
      ([], .error "Provide file or fileHash, not both.") ∧
    sheetsAddRunIndexTs file0 pageArg fileHash0 opts computedHash probe =
      ([], .error "Provide file or fileHash, not both.") ∧
    sheetsAddRunPart003 file0 pageArg fileHash0 opts computedHash probe =
      ([], .error "Provide file or fileHash, not both.") := by
  unfold drawingsAnalyzeRun sheetsAddRunIndexTs sheetsAddRunPart003
  simp [hfile, hhash]

theorem C8_both_inputs_witness :
    drawingsAnalyzeRun (some .blob) 4 (some "abc123def4567890") "h0" (.ok false) =
      ([], .error "Provide file or fileHash, not both.") ∧
    sheetsAddRunIndexTs (some .blob) (.num 4) (some "abc123def4567890") {} "h0" (.ok false) =
      ([], .error "Provide file or fileHash, not both.") ∧
    sheetsAddRunPart003 (some .blob) (.num 4) (some "abc123def4567890") {} "h0" (.ok false) =
      ([], .error "Provide file or fileHash, not both.") :=
  C8_both_inputs_validation_before_network (some .blob) 4 (.num 4)
    (some "abc123def4567890") {} "h0" (.ok false) rfl (by decide)

theorem waitLoop_timedOut_elapsed (jobId : String) (t p : Nat)
    (statuses : Nat → JobStatusM) (latency : Nat → Nat) :
    ∀ fuel elapsed k m,
      (waitLoop jobId t p statuses latency fuel elapsed k).outcome = .timedOut m →
      t ≤ (waitLoop jobId t p statuses latency fuel elapsed k).elapsed := by
  intro fuel
  induction fuel with
  | zero => intro elapsed k m h; simp [waitLoop] at h
  | succ n ih =>
      intro elapsed k m h
      rw [waitLoop] at h ⊢
      by_cases hg : elapsed < t
      · by_cases hc : (statuses k).status = "complete"
        · simp [hg, hc] at h
        · by_cases hf : (statuses k).status = "failed"
          · simp [hg, hc, hf] at h
          · simp only [if_pos hg, if_neg hc, if_neg hf] at h ⊢
            exact ih _ _ _ h
      · simp [hg] at h ⊢
        omega

theorem waitLoop_nonterminal_timedOut (jobId : String) (t p : Nat)
    (statuses : Nat → JobStatusM) (latency : Nat → Nat)
    (hp : 1 ≤ p)
    (hnt : ∀ k, (statuses k).status = "queued" ∨ (statuses k).status = "running") :
    ∀ fuel elapsed k, 1 ≤ fuel → t + 1 ≤ fuel + elapsed →
      (waitLoop jobId t p statuses latency fuel elapsed k).outcome =
        .timedOut ("Job " ++ jobId ++ " did not complete within " ++
          toString t ++ "ms") := by
  intro fuel
  induction fuel with
  | zero => intro elapsed k h1 _; omega
  | succ n ih =>
      intro elapsed k _ h2
      rw [waitLoop]
      by_cases hg : elapsed < t
      · have hc : ¬(statuses k).status = "complete" := by
          rcases hnt k with h | h <;> rw [h] <;> decide
        have hf : ¬(statuses k).status = "failed" := by
          rcases hnt k with h | h <;> rw [h] <;> decide
        simp only [if_pos hg, if_neg hc, if_neg hf]
        exact ih (elapsed + latency k + p) (k + 1) (by omega) (by omega)
      · simp [hg]

/-- C4: a `wait` over a job that never leaves `queued`/`running` throws the
timeout error, and any `wait` run that throws the timeout error does so only
once the elapsed time has reached the configured timeout, never before. -/
theorem C4_wait_timeout_after_deadline (jobId : String) (timeoutMs pollIntervalMs : Nat)
    (statuses statuses₂ : Nat → JobStatusM) (latency latency₂ : Nat → Nat) (m₂ : String)
    (hp : 1 ≤ pollIntervalMs)
    (hnt : ∀ k, (statuses k).status = "queued" ∨ (statuses k).status = "running")
    (h₂ : (jobWait jobId timeoutMs pollIntervalMs statuses₂ latency₂).outcome =
      .timedOut m₂) :
    (jobWait jobId timeoutMs pollIntervalMs statuses latency).outcome =
      .timedOut ("Job " ++ jobId ++ " did not complete within " ++
        toString timeoutMs ++ "ms") ∧
    timeoutMs ≤ (jobWait jobId timeoutMs pollIntervalMs statuses latency).elapsed ∧
    timeoutMs ≤ (jobWait jobId timeoutMs pollIntervalMs statuses₂ latency₂).elapsed := by
  have hout := waitLoop_nonterminal_timedOut jobId timeoutMs pollIntervalMs statuses latency
    hp hnt (timeoutMs + 1) 0 0 (by omega) (by omega)
  exact ⟨hout,
    waitLoop_timedOut_elapsed jobId timeoutMs pollIntervalMs statuses latency
      (timeoutMs + 1) 0 0 _ hout,
    waitLoop_timedOut_elapsed jobId timeoutMs pollIntervalMs statuses₂ latency₂
      (timeoutMs + 1) 0 0 m₂ h₂⟩

theorem C4_wait_timeout_witness :
    (jobWait "job_2" 4 2 (fun _ => ⟨"running", none, none⟩) (fun _ => 0)).outcome =
      .timedOut ("Job " ++ "job_2" ++ " did not complete within " ++ toString 4 ++ "ms") ∧
    4 ≤ (jobWait "job_2" 4 2 (fun _ => ⟨"running", none, none⟩) (fun _ => 0)).elapsed ∧
    4 ≤ (jobWait "job_2" 4 2 (fun _ => ⟨"running", none, none⟩) (fun _ => 0)).elapsed :=
  C4_wait_timeout_after_deadline "job_2" 4 2
    (fun _ => ⟨"running", none, none⟩) (fun _ => ⟨"running", none, none⟩)
    (fun _ => 0) (fun _ => 0)
    ("Job " ++ "job_2" ++ " did not complete within " ++ toString 4 ++ "ms")
    (by decide) (fun _ => Or.inr rfl) (by decide)

/-- C6: a response with `N ≠ 1` job descriptors yields a `JobBatch` whose
`ids` equals the server job-id list in order, and whose `statusAll` /
`waitAll` results line up index-by-index with the member jobs. -/
theorem C6_multi_descriptor_batch_order (projectId : String)
    (respJobs : Option (List JobSummaryM)) (statusOf : JobRec → JobStatusM)
    (timeoutMs pollIntervalMs : Nat) (statusesFor : JobRec → Nat → JobStatusM)
    (latencyFor : JobRec → Nat → Nat) (i : Nat)
    (h : (respJobs.getD []).length ≠ 1) :
    sheetsAddShape projectId respJobs = .batch (jobsOf projectId respJobs) ∧
    batchIds (jobsOf projectId respJobs) = (respJobs.getD []).map (·.job_id) ∧
    (batchStatusAll (jobsOf projectId respJobs) statusOf).get? i =
      ((jobsOf projectId respJobs).get? i).map statusOf ∧
    (batchWaitAll (jobsOf projectId respJobs) timeoutMs pollIntervalMs
        statusesFor latencyFor).get? i =
      ((jobsOf projectId respJobs).get? i).map
        (fun j => jobWait j.id timeoutMs pollIntervalMs (statusesFor j) (latencyFor j)) := by
  have hlen : (jobsOf projectId respJobs).length ≠ 1 := by
    simpa [jobsOf] using h
  refine ⟨?_, ?_, ?_, ?_⟩
  · rcases hj : jobsOf projectId respJobs with _ | ⟨a, _ | ⟨b, rest⟩⟩
    · simp [sheetsAddShape, hj]
    · rw [hj] at hlen; simp at hlen
    · simp [sheetsAddShape, hj]
  · simp [batchIds, jobsOf]
  · simp [batchStatusAll, List.get?_eq_getElem?, List.getElem?_map]
  · simp [batchWaitAll, List.get?_eq_getElem?, List.getElem?_map]

theorem C6_multi_descriptor_witness :
    sheetsAddShape "proj_1" (some [⟨"job_2", 1⟩, ⟨"job_3", 2⟩]) =
      .batch (jobsOf "proj_1" (some [⟨"job_2", 1⟩, ⟨"job_3", 2⟩])) ∧
    batchIds (jobsOf "proj_1" (some [⟨"job_2", 1⟩, ⟨"job_3", 2⟩])) =
      (((some [⟨"job_2", 1⟩, ⟨"job_3", 2⟩] : Option (List JobSummaryM))).getD []).map
        (·.job_id) ∧
    (batchStatusAll (jobsOf "proj_1" (some [⟨"job_2", 1⟩, ⟨"job_3", 2⟩]))
        (fun _ => ⟨"queued", none, none⟩)).get? 0 =
      ((jobsOf "proj_1" (some [⟨"job_2", 1⟩, ⟨"job_3", 2⟩])).get? 0).map
        (fun _ => ⟨"queued", none, none⟩) ∧
    (batchWaitAll (jobsOf "proj_1" (some [⟨"job_2", 1⟩, ⟨"job_3", 2⟩])) 4 2
        (fun _ _ => ⟨"running", none, none⟩) (fun _ _ => 0)).get? 0 =
      ((jobsOf "proj_1" (some [⟨"job_2", 1⟩, ⟨"job_3", 2⟩])).get? 0).map
        (fun j => jobWait j.id 4 2 ((fun _ _ => ⟨"running", none, none⟩) j)
          ((fun _ _ => (0 : Nat)) j)) :=
  C6_multi_descriptor_batch_order "proj_1" (some [⟨"job_2", 1⟩, ⟨"job_3", 2⟩])
    (fun _ => ⟨"queued", none, none⟩) 4 2
    (fun _ _ => ⟨"running", none, none⟩) (fun _ _ => 0) 0 (by decide)

/-- C9 counterexample: in `src/js/src/index.ts` a failing cache probe
*propagates* out of `sheets.add` and `drawings.analyze` — the run ends in the
probe's error after issuing only the probe request, and no upload POST is
issued, contradicting the fail-open claim. -/
theorem C9_counterexample_probe_failure_propagates :
    sheetsAddRunIndexTs (some .blob) (.num 1) none {} "h16" (.error "network down") =
      ([.cacheProbe "h16"], .error "network down") ∧
    drawingsAnalyzeRun (some .blob) 1 none "h16" (.error "network down") =
      ([.cacheProbe "h16"], .error "network down") :=
  ⟨rfl, rfl⟩

/-- C9 (amended): only `Sheets.add` of the `part_003` variant fails open — it
swallows the probe failure and issues the upload POST carrying the file bytes
with no `file_hash`; in `src/js/src/index.ts` both `drawings.analyze` and
`sheets.add` propagate the probe failure and issue no POST. -/
theorem C9_amended_fail_open_only_part003_add
    (file0 : Option Upl) (n pg : Int) (opts : AddOpts) (computedHash e : String)
    (hfile : jsTruthyFile file0 = true) :
    sheetsAddRunPart003 file0 (.num n) none opts computedHash (.error e) =
      ([.cacheProbe computedHash,
        .postSheets
          { page := toString n
            file_hash := none
            has_file := true
            source_description := opts.sourceDescription
            on_sheet_exists :=
              if jsTruthyHash opts.onSheetExists then opts.onSheetExists else none
            community_update_mode :=
              if jsTruthyHash opts.communityUpdateMode then opts.communityUpdateMode
              else none
            semantic_index_update_mode :=
              if jsTruthyHash opts.semanticIndexUpdateMode then
                opts.semanticIndexUpdateMode
              else none }],
       .ok ()) ∧
    sheetsAddRunIndexTs file0 (.num n) none opts computedHash (.error e) =
      ([.cacheProbe computedHash], .error e) ∧
    drawingsAnalyzeRun file0 pg none computedHash (.error e) =
      ([.cacheProbe computedHash], .error e) := by
  unfold sheetsAddRunPart003 sheetsAddRunIndexTs drawingsAnalyzeRun sheetsFormOf
    parsePageSelector
  simp [hfile, jsTruthyHash]

theorem C9_amended_witness :
    (sheetsAddRunPart003 (some .blob) (.num 1) none {} "h16" (.error "network down") =
      ([.cacheProbe "h16",
        .postSheets
          { page := toString (1 : Int)
            file_hash := none
            has_file := true
            source_description := ({} : AddOpts).sourceDescription
            on_sheet_exists :=
              if jsTruthyHash ({} : AddOpts).onSheetExists then
                ({} : AddOpts).onSheetExists
              else none
            community_update_mode :=
              if jsTruthyHash ({} : AddOpts).communityUpdateMode then
                ({} : AddOpts).communityUpdateMode
              else none
            semantic_index_update_mode :=
              if jsTruthyHash ({} : AddOpts).semanticIndexUpdateMode then
                ({} : AddOpts).semanticIndexUpdateMode
              else none }],
       .ok ())) ∧
    sheetsAddRunIndexTs (some .blob) (.num 1) none {} "h16" (.error "network down") =
      ([.cacheProbe "h16"], .error "network down") ∧
    drawingsAnalyzeRun (some .blob) 1 none "h16" (.error "network down") =
      ([.cacheProbe "h16"], .error "network down") :=
  C9_amended_fail_open_only_part003_add (some .blob) 1 1 {} "h16" "network down" rfl

theorem sheetSummaryRun_ok_calls (projectId sheetId : String) (orphanLimit? : Option ℚ)
    (sheetRows labelRows relRows reachabilityRows orphanRows : List Row)
    (res : SheetSummaryResult) (calls : List CypherCall)
    (h : sheetSummaryRun projectId sheetId orphanLimit? sheetRows labelRows relRows
        reachabilityRows orphanRows = .ok (res, calls)) :
    calls = (sheetSummaryCore projectId (jsTrim sheetId) (orphanLimitOf orphanLimit?)
      sheetRows labelRows relRows reachabilityRows orphanRows).2 := by
  unfold sheetSummaryRun requireText at h
  by_cases hb : jsTrim sheetId = "" <;> simp [hb] at h
  exact (congrArg Prod.snd h).symm

theorem referenceResolveRun_ok_eq (projectId uuid : String) (limit? : Option ℚ)
    (sourceRows referenceRows : List Row)
    (res : RefResolveResult) (calls : List CypherCall)
    (h : referenceResolveRun projectId uuid limit? sourceRows referenceRows =
      .ok (res, calls)) :
    res = (referenceResolveCore projectId (jsTrim uuid) (refLimitOf limit?)
        sourceRows referenceRows).1 ∧
    calls = (referenceResolveCore projectId (jsTrim uuid) (refLimitOf limit?)
        sourceRows referenceRows).2 := by
  unfold referenceResolveRun requireText at h
  by_cases hb : jsTrim uuid = "" <;> simp [hb] at h
  exact ⟨(congrArg Prod.fst h).symm, (congrArg Prod.snd h).symm⟩

theorem clamp_char (t : Int) :
    max 1 (min t 200) = (if t < 1 then 1 else if 200 < t then 200 else t) := by
  split_ifs <;> omega

theorem referenceResolveCore_input_limit (projectId nodeUuid : String) (limit : Int)
    (sourceRows referenceRows : List Row) :
    (referenceResolveCore projectId nodeUuid limit sourceRows referenceRows).1.input_limit =
      limit := by
  cases sourceRows <;> rfl

theorem referenceResolveCore_calls (projectId nodeUuid : String) (limit : Int)
    (sourceRows referenceRows : List Row) :
    (referenceResolveCore projectId nodeUuid limit sourceRows referenceRows).2 =
      [⟨1, none⟩] ∨
    (referenceResolveCore projectId nodeUuid limit sourceRows referenceRows).2 =
      [⟨1, none⟩, ⟨limit, some limit⟩] := by
  cases sourceRows
  · exact Or.inl rfl
  · exact Or.inr rfl

/-- C10: for any `orphanLimit` / `limit` option, the effective limit is the
truncated value clamped into `[1, 200]` — it is echoed in the result's input
block and is the row cap and `$limit`-style parameter of the issued queries;
out-of-range or fractional values are normalised, never rejected. -/
theorem C10_limits_normalised (q1 q2 : Option ℚ) (projectId sheetId uuid : String)
    (sheetRows labelRows relRows reachabilityRows orphanRows srcRows refRows : List Row)
    (res1 : SheetSummaryResult) (calls1 : List CypherCall)
    (res2 : RefResolveResult) (calls2 : List CypherCall)
    (h1 : sheetSummaryRun projectId sheetId q1 sheetRows labelRows relRows
      reachabilityRows orphanRows = .ok (res1, calls1))
    (h2 : referenceResolveRun projectId uuid q2 srcRows refRows = .ok (res2, calls2)) :
    (1 ≤ orphanLimitOf q1 ∧ orphanLimitOf q1 ≤ 200 ∧
      orphanLimitOf q1 =
        (if jsTruncQ (q1.getD 10) < 1 then 1
         else if 200 < jsTruncQ (q1.getD 10) then 200 else jsTruncQ (q1.getD 10))) ∧
    res1.input_orphan_limit = orphanLimitOf q1 ∧
    calls1 = [⟨1, none⟩, ⟨500, none⟩, ⟨500, none⟩, ⟨1, none⟩,
      ⟨orphanLimitOf q1, some (orphanLimitOf q1)⟩] ∧
    (1 ≤ refLimitOf q2 ∧ refLimitOf q2 ≤ 200 ∧
      refLimitOf q2 =
        (if jsTruncQ (q2.getD 100) < 1 then 1
         else if 200 < jsTruncQ (q2.getD 100) then 200 else jsTruncQ (q2.getD 100))) ∧
    res2.input_limit = refLimitOf q2 ∧
    (calls2 = [⟨1, none⟩] ∨
      calls2 = [⟨1, none⟩, ⟨refLimitOf q2, some (refLimitOf q2)⟩]) := by
  obtain ⟨hres2, hcalls2⟩ := referenceResolveRun_ok_eq projectId uuid q2 srcRows refRows
    res2 calls2 h2
  refine ⟨⟨le_max_left _ _, ?_, clamp_char _⟩, ?_, ?_, ⟨le_max_left _ _, ?_, clamp_char _⟩,
    ?_, ?_⟩
  · unfold orphanLimitOf; omega
  · rw [sheetSummaryRun_ok projectId sheetId q1 sheetRows labelRows relRows
      reachabilityRows orphanRows res1 calls1 h1]
    rfl
  · rw [sheetSummaryRun_ok_calls projectId sheetId q1 sheetRows labelRows relRows
      reachabilityRows orphanRows res1 calls1 h1]
    rfl
  · unfold refLimitOf; omega
  · rw [hres2]
    exact referenceResolveCore_input_limit projectId (jsTrim uuid) (refLimitOf q2)
      srcRows refRows
  · rw [hcalls2]
    exact referenceResolveCore_calls projectId (jsTrim uuid) (refLimitOf q2) srcRows refRows

theorem C10_limits_witness :
    (1 ≤ orphanLimitOf (some 500) ∧ orphanLimitOf (some 500) ≤ 200 ∧
      orphanLimitOf (some 500) =
        (if jsTruncQ ((some (500 : ℚ)).getD 10) < 1 then 1
         else if 200 < jsTruncQ ((some (500 : ℚ)).getD 10) then 200
         else jsTruncQ ((some (500 : ℚ)).getD 10))) ∧
    (sheetSummaryCore "p1" (jsTrim "S111") (orphanLimitOf (some 500))
        [] [] [] [] []).1.input_orphan_limit = orphanLimitOf (some 500) ∧
    (sheetSummaryCore "p1" (jsTrim "S111") (orphanLimitOf (some 500))
        [] [] [] [] []).2 =
      [⟨1, none⟩, ⟨500, none⟩, ⟨500, none⟩, ⟨1, none⟩,
        ⟨orphanLimitOf (some 500), some (orphanLimitOf (some 500))⟩] ∧
    (1 ≤ refLimitOf none ∧ refLimitOf none ≤ 200 ∧
      refLimitOf none =
        (if jsTruncQ ((none : Option ℚ).getD 100) < 1 then 1
         else if 200 < jsTruncQ ((none : Option ℚ).getD 100) then 200
         else jsTruncQ ((none : Option ℚ).getD 100))) ∧
    (referenceResolveCore "p1" (jsTrim "u1") (refLimitOf none) [] []).1.input_limit =
      refLimitOf none ∧
    ((referenceResolveCore "p1" (jsTrim "u1") (refLimitOf none) [] []).2 =
        [⟨1, none⟩] ∨
      (referenceResolveCore "p1" (jsTrim "u1") (refLimitOf none) [] []).2 =
        [⟨1, none⟩, ⟨refLimitOf none, some (refLimitOf none)⟩]) :=
  C10_limits_normalised (some 500) none "p1" "S111" "u1" [] [] [] [] [] [] []
    (sheetSummaryCore "p1" (jsTrim "S111") (orphanLimitOf (some 500)) [] [] [] [] []).1
    (sheetSummaryCore "p1" (jsTrim "S111") (orphanLimitOf (some 500)) [] [] [] [] []).2
    (referenceResolveCore "p1" (jsTrim "u1") (refLimitOf none) [] []).1
    (referenceResolveCore "p1" (jsTrim "u1") (refLimitOf none) [] []).2
    (by decide) (by decide)

/-- The composite dedup key recomputed from a pushed entry's own fields. -/
def entryKeyOf (e : ResolvedRef) : JVal × JVal × JVal × JVal :=
  (jnorm e.rel_uuid, jnorm e.target_uuid, jnorm e.loc1_uuid, jnorm e.loc2_uuid)

theorem mkResolvedRef_key (sts : List String) (u : String) (row : Row) :
    entryKeyOf (mkResolvedRef sts u row).1 = refKeyOf row := rfl

theorem resolveLoop_keys_nodup (sts : List String) (u : String) :
    ∀ rows seen,
      ((resolveLoop sts u rows seen).1.map entryKeyOf).Nodup ∧
      ∀ key ∈ (resolveLoop sts u rows seen).1.map entryKeyOf, key ∉ seen := by
  intro rows
  induction rows with
  | nil => intro seen; simp [resolveLoop]
  | cons row rest ih =>
      intro seen
      rw [resolveLoop]
      by_cases h1 : isNullish (getF row "rel_uuid") ∧ isNullish (getF row "target_uuid")
      · simp only [if_pos h1]
        exact ih seen
      · simp only [if_neg h1]
        by_cases h2 : refKeyOf row ∈ seen
        · simp only [if_pos h2]
          exact ih seen
        · simp only [if_neg h2]
          obtain ⟨hnodup, hfresh⟩ := ih (refKeyOf row :: seen)
          refine ⟨?_, ?_⟩
          · simp only [List.map_cons, List.nodup_cons, mkResolvedRef_key]
            refine ⟨fun hmem => ?_, hnodup⟩
            exact (hfresh _ hmem) (List.mem_cons_self _ _)
          · intro key hkey
            simp only [List.map_cons, List.mem_cons, mkResolvedRef_key] at hkey
            rcases hkey with hk | hk
            · rw [hk]; exact h2
            · intro hs
              exact (hfresh key hk) (List.mem_cons_of_mem _ hs)

/-- C2 counterexample: two traversal rows sharing the relationship and target
ids but differing in their first `LOCATED_IN` location id survive the
composite-key dedup, so `resolved_references` carries the same
(relationship id, target id) pair twice — the claim's pair-level uniqueness
fails exactly in the fan-out case it quantifies over. -/
theorem C2_counterexample_duplicate_pair :
    referenceResolveRun "p1" "u1" none [[("uuid", .prim (.str "u1"))]]
        [[("rel_uuid", .prim (.str "r1")), ("target_uuid", .prim (.str "t1")),
          ("target_located_in_uuid_1", .prim (.str "L1"))],
         [("rel_uuid", .prim (.str "r1")), ("target_uuid", .prim (.str "t1")),
          ("target_located_in_uuid_1", .prim (.str "L2"))]] =
      .ok (referenceResolveCore "p1" (jsTrim "u1") (refLimitOf none)
        [[("uuid", .prim (.str "u1"))]]
        [[("rel_uuid", .prim (.str "r1")), ("target_uuid", .prim (.str "t1")),
          ("target_located_in_uuid_1", .prim (.str "L1"))],
         [("rel_uuid", .prim (.str "r1")), ("target_uuid", .prim (.str "t1")),
          ("target_located_in_uuid_1", .prim (.str "L2"))]]) ∧
    ((referenceResolveCore "p1" (jsTrim "u1") (refLimitOf none)
        [[("uuid", .prim (.str "u1"))]]
        [[("rel_uuid", .prim (.str "r1")), ("target_uuid", .prim (.str "t1")),
          ("target_located_in_uuid_1", .prim (.str "L1"))],
         [("rel_uuid", .prim (.str "r1")), ("target_uuid", .prim (.str "t1")),
          ("target_located_in_uuid_1", .prim (.str "L2"))]]).1.resolved_references.map
        (fun e => (e.rel_uuid, e.target_uuid))) =
      [(.prim (.str "r1"), .prim (.str "t1")),
       (.prim (.str "r1"), .prim (.str "t1"))] ∧
    ¬ List.Nodup ((referenceResolveCore "p1" (jsTrim "u1") (refLimitOf none)
        [[("uuid", .prim (.str "u1"))]]
        [[("rel_uuid", .prim (.str "r1")), ("target_uuid", .prim (.str "t1")),
          ("target_located_in_uuid_1", .prim (.str "L1"))],
         [("rel_uuid", .prim (.str "r1")), ("target_uuid", .prim (.str "t1")),
          ("target_located_in_uuid_1", .prim (.str "L2"))]]).1.resolved_references.map
        (fun e => (e.rel_uuid, e.target_uuid))) := by
  refine ⟨by decide, by decide, by decide⟩

/-- C2 (amended): `resolved_references` never contains two entries with the
same composite key (relationship id, target id, first location id, second
location id) — uniqueness holds for the four-component key the code dedups
by, not for the (relationship id, target id) pair alone. -/
theorem C2_amended_dedup_by_composite_key (projectId uuid : String) (limit? : Option ℚ)
    (sourceRows referenceRows : List Row) (res : RefResolveResult) (calls : List CypherCall)
    (h : referenceResolveRun projectId uuid limit? sourceRows referenceRows =
      .ok (res, calls)) :
    (res.resolved_references.map entryKeyOf).Nodup := by
  obtain ⟨hres, -⟩ := referenceResolveRun_ok_eq projectId uuid limit? sourceRows
    referenceRows res calls h
  rw [hres]
  cases sourceRows with
  | nil => simp [referenceResolveCore]
  | cons s rest =>
      have hrr : (referenceResolveCore projectId (jsTrim uuid) (refLimitOf limit?)
          (s :: rest) referenceRows).1.resolved_references =
          (resolveLoop (sourceTargetSheetsOf s) (jsTrim uuid) referenceRows []).1 := rfl
      rw [hrr]
      exact (resolveLoop_keys_nodup (sourceTargetSheetsOf s) (jsTrim uuid)
        referenceRows []).1

theorem C2_amended_witness :
    List.Nodup ((referenceResolveCore "p1" (jsTrim "u1") (refLimitOf none)
        [[("uuid", .prim (.str "u1"))]]
        [[("rel_uuid", .prim (.str "r1")), ("target_uuid", .prim (.str "t1")),
          ("target_located_in_uuid_1", .prim (.str "L1"))],
         [("rel_uuid", .prim (.str "r1")), ("target_uuid", .prim (.str "t1")),
          ("target_located_in_uuid_1", .prim (.str "L1"))]]).1.resolved_references.map
      entryKeyOf) :=
  C2_amended_dedup_by_composite_key "p1" "u1" none
    [[("uuid", .prim (.str "u1"))]]
    [[("rel_uuid", .prim (.str "r1")), ("target_uuid", .prim (.str "t1")),
      ("target_located_in_uuid_1", .prim (.str "L1"))],
     [("rel_uuid", .prim (.str "r1")), ("target_uuid", .prim (.str "t1")),
      ("target_located_in_uuid_1", .prim (.str "L1"))]]
    (referenceResolveCore "p1" (jsTrim "u1") (refLimitOf none)
        [[("uuid", .prim (.str "u1"))]]
        [[("rel_uuid", .prim (.str "r1")), ("target_uuid", .prim (.str "t1")),
          ("target_located_in_uuid_1", .prim (.str "L1"))],
         [("rel_uuid", .prim (.str "r1")), ("target_uuid", .prim (.str "t1")),
          ("target_located_in_uuid_1", .prim (.str "L1"))]]).1
    (referenceResolveCore "p1" (jsTrim "u1") (refLimitOf none)
        [[("uuid", .prim (.str "u1"))]]
        [[("rel_uuid", .prim (.str "r1")), ("target_uuid", .prim (.str "t1")),
          ("target_located_in_uuid_1", .prim (.str "L1"))],
         [("rel_uuid", .prim (.str "r1")), ("target_uuid", .prim (.str "t1")),
          ("target_located_in_uuid_1", .prim (.str "L1"))]]).2
    (by decide)

theorem length_insertSorted (x : String) : ∀ l : List String,
    (insertSorted x l).length = l.length + 1 := by
  intro l
  induction l with
  | nil => rfl
  | cons y ys ih =>
      rw [insertSorted]
      split <;> simp [ih]

theorem sortStrings_eq_nil_iff (l : List String) : sortStrings l = [] ↔ l = [] := by
  cases l with
  | nil => simp [sortStrings]
  | cons x xs =>
      simp only [sortStrings, List.foldr_cons]
      constructor
      · intro h
        have hl := congrArg List.length h
        rw [length_insertSorted] at hl
        simp at hl
      · intro h
        cases h

theorem sortStrings_filter_pos_iff (l : List String) (p : String → Bool) :
    0 < (sortStrings (l.filter p)).length ↔ ∃ id ∈ l, p id := by
  rw [List.length_pos, Ne, sortStrings_eq_nil_iff, List.filter_eq_nil_iff]
  simp

theorem ite_singleton_eq_nil {α : Type} (c : Prop) [Decidable c] (w : α) :
    (if c then [w] else []) = [] ↔ ¬c := by
  split_ifs with h <;> simp [h]

/-- C7 counterexample input: one sheet node, empty inventory.  The
`sheet_node_without_inventory` warning fires while the claim's right-hand side
holds vacuously, so the claimed equivalence fails. -/
def sheetListSpecClaimRhs (sheetNodes inventory : List Row) : Prop :=
  ∀ id ∈ idsOfRows inventory,
    (sheetNodes.filter fun r => getF r "sheet_id" == JVal.prim (.str id)).length = 1 ∧
    (inventoryCountsOf inventory id).getD 0 > 1

/-- C7 counterexample: with a sheet node `S1` and no inventory rows, every
inventory sheet id (vacuously) has exactly one matching sheet node with more
than one inventory row, yet `mismatch_warnings` is non-empty
(`sheet_node_without_inventory` fires) — the claimed equivalence is false. -/
theorem C7_counterexample_vacuous_rhs_nonempty_warnings :
    ¬ (((sheetListRun "p1" [[("sheet_id", .prim (.str "S1"))]] [] []
          []).1.mismatch_warnings = []) ↔
        sheetListSpecClaimRhs [[("sheet_id", .prim (.str "S1"))]] []) := by
  unfold sheetListSpecClaimRhs
  decide

theorem not_pos_sort_filter_contains (l l2 : List String) :
    ¬0 < (sortStrings (l.filter fun id => !l2.contains id)).length ↔
      ∀ id ∈ l, id ∈ l2 := by
  rw [sortStrings_filter_pos_iff]
  simp

theorem not_pos_sort_filter_count (l : List String) (f : String → Option Int) :
    ¬0 < (sortStrings (l.filter fun id => (f id).getD 0 == 1)).length ↔
      ∀ id ∈ l, (f id).getD 0 ≠ 1 := by
  rw [sortStrings_filter_pos_iff]
  simp

/-- C7 (amended): the sheet-list mismatch-warning list is empty iff *all five*
anomaly classes are absent: every inventory sheet id has a sheet node, every
sheet-node id has an inventory row, the duplicate-sheet-node query returned no
rows, the missing-sheet-id count is not positive, and no sheet-node id has an
inventory count of exactly one. -/
theorem C7_amended_warnings_empty_iff (projectId : String)
    (sheetNodes inventory duplicateSheetNodes missingRows : List Row) :
    (sheetListRun projectId sheetNodes inventory duplicateSheetNodes
        missingRows).1.mismatch_warnings = [] ↔
      ((∀ id ∈ idsOfRows inventory, id ∈ idsOfRows sheetNodes) ∧
       (∀ id ∈ idsOfRows sheetNodes, id ∈ idsOfRows inventory) ∧
       duplicateSheetNodes = [] ∧
       missingCountOf missingRows ≤ 0 ∧
       (∀ id ∈ idsOfRows sheetNodes,
         (inventoryCountsOf inventory id).getD 0 ≠ 1)) := by
  show mismatchWarningsOf sheetNodes inventory duplicateSheetNodes
      (missingCountOf missingRows) = [] ↔ _
  unfold mismatchWarningsOf
  simp only [List.append_eq_nil, ite_singleton_eq_nil, gt_iff_lt]
  have e1 := not_pos_sort_filter_contains (idsOfRows inventory) (idsOfRows sheetNodes)
  have e2 := not_pos_sort_filter_contains (idsOfRows sheetNodes) (idsOfRows inventory)
  have e3 : ¬0 < duplicateSheetNodes.length ↔ duplicateSheetNodes = [] := by
    rw [Nat.not_lt, Nat.le_zero, List.length_eq_zero]
  have e4 : ¬0 < missingCountOf missingRows ↔ missingCountOf missingRows ≤ 0 := by
    omega
  have e5 := not_pos_sort_filter_count (idsOfRows sheetNodes)
    (inventoryCountsOf inventory)
  rw [e1, e2, e3, e4, e5]
  tauto
